import Mathlib

/-!
# OMR-scanner: verification of the batch-processing pipeline

Shallow embedding of the core pipeline of the OMR-scanner repository:

* `src/unnamed/part_000` (`types.ts`): `PageType`, `ScanStatus`, `StudentRecord`;
* `src/services/geminiService.ts`: `processOmrImage` (success-path result shape,
  VibeMatch normalization, retry-on-throttle loop);
* `src/unnamed/part_002` (`App.tsx`, current): `processItem`, `processQueue`
  (concurrency-limited dispatch, progress accounting, batch status),
  `handleFileUpload` (Mix-mode PDF grouping, fail-fast preparation),
  `handleProcessSeparate`, `updateRecord`.

JavaScript runtime values that may be `undefined` or `null` are modelled as
`Option`; UUIDs produced by `crypto.randomUUID()` are modelled as distinct
natural-number tokens handed out by a counter (the code uses them only as
opaque linking tokens); JS numbers that only flow through the pipeline
(confidence scores) are modelled as `Rat`.
-/

namespace OMRScanner

/-- `PageType` from `types.ts` (`src/unnamed/part_000`), with the `SEPARATE`
member referenced by the current `App.tsx` (`src/unnamed/part_002`). -/
inductive PageType where
  | studentInfo   -- 'Page 1 (Info)'
  | vibeMatch     -- 'Page 2 (VibeMatch)'
  | eduStats      -- 'Page 3 (EduStats)'
  | mix           -- 'Mix (Auto-Detect)'
  | separate      -- 'Separate' mode of the current App.tsx
  deriving DecidableEq, Repr

/-- `ScanStatus` from `types.ts`. -/
inductive ScanStatus where
  | idle
  | scanning
  | success
  | error
  deriving DecidableEq, Repr

/-- The value returned by `processOmrImage` on success
(`src/services/geminiService.ts`, lines 197-205 and 223): an object with
exactly the two properties `data` and `confidenceScore`. -/
structure OmrResult (δ : Type) where
  data : δ
  confidenceScore : Rat
  deriving DecidableEq, Repr

/-- JS property access `result.pageType` on the object `processOmrImage`
returns. Every `return` of `processOmrImage` builds an object literal with
only `data` and `confidenceScore` (geminiService.ts lines 197-205 and 223),
so reading `pageType` on it yields `undefined`, modelled as `none`. -/
def OmrResult.pageTypeProp {δ : Type} (_ : OmrResult δ) : Option PageType := none

/-- One work-queue entry of `processQueue` in the current `App.tsx`
(`src/unnamed/part_002`): `{ base64, groupId, predefinedType? }`. -/
structure WorkItem where
  base64 : String
  groupId : Option Nat
  predefinedType : Option PageType
  deriving DecidableEq, Repr

/-- A `StudentRecord` as built at runtime by `processItem`
(`src/unnamed/part_002` lines 178-186). The declared TS type has a
non-optional `pageType`, but the runtime value stored is whatever
`result.pageType` evaluates to, which may be `undefined`; hence
`Option PageType` here. `id` and `scannedAt` are opaque tokens. -/
structure StudentRecord (δ : Type) where
  id : Nat
  scannedAt : Nat
  originalImageUrl : String
  pageType : Option PageType
  data : δ
  confidenceScore : Rat
  linkedGroupId : Option Nat
  deriving DecidableEq, Repr

/-- `processItem` from `processQueue` (`src/unnamed/part_002` lines 169-199):
given the work item and the outcome of its `processOmrImage` call (`.ok` for a
resolved call, `.error` for a thrown one), either assembles the record that is
prepended to `records` (success) or produces no record (failure). `freshId`
and `now` stand for `crypto.randomUUID()` and `new Date().toISOString()`.
The `pageType` field is set from `result.pageType` (line 182), i.e. from
`OmrResult.pageTypeProp`; `linkedGroupId` is `item.groupId || undefined`. -/
def processItem {δ : Type} (item : WorkItem) (callResult : Except Bool (OmrResult δ))
    (freshId : Nat) (now : Nat) : Option (StudentRecord δ) :=
  match callResult with
  | .ok result =>
      some { id := freshId
             scannedAt := now
             originalImageUrl := item.base64
             pageType := result.pageTypeProp
             data := result.data
             confidenceScore := result.confidenceScore
             linkedGroupId := item.groupId }
  | .error _ => none

/-- `updateRecord` (`src/unnamed/part_002` lines 277-279, identical in
`src/App.tsx` lines 117-119):
`setRecords(prev => prev.map(r => r.id === id ? { ...r, data: newData } : r))`. -/
def updateRecord {δ : Type} (id : Nat) (newData : δ)
    (prev : List (StudentRecord δ)) : List (StudentRecord δ) :=
  prev.map fun r => if r.id = id then { r with data := newData } else r

/-! ## Retry-on-throttle loop of `processOmrImage`
(`src/services/geminiService.ts` lines 168-241). -/

/-- One outcome of the `ai.models.generateContent` call inside the
`while (true)` loop of `processOmrImage`: either the call resolves with
parsed data and a confidence score, or it throws an error whose
rate-limit classification (`isRateLimit` at lines 226-228) is recorded. -/
inductive OracleReply (δ : Type) where
  | ok (data : δ) (confidenceScore : Rat)
  | err (isRateLimit : Bool)
  deriving DecidableEq, Repr

/-- `const maxRetries = 3` (geminiService.ts line 169). -/
def maxRetries : Nat := 3

/-- The `while (true)` retry loop of `processOmrImage` (lines 171-241), run
against the sequence of oracle-call outcomes: on success return it; on a
rate-limited error with `retryCount < maxRetries`, increment `retryCount`,
sleep `Math.pow(2, retryCount) * 1000` milliseconds (recorded in `waits`) and
loop; on any other error rethrow it. Returns `none` only if the supplied
outcome list is exhausted (the real loop would call the oracle again);
otherwise the propagated error (carrying its rate-limit flag) or the
successful payload, together with all waits performed, in order. -/
def retryLoop {δ : Type} (retryCount : Nat) (waits : List Nat) :
    List (OracleReply δ) → Option (Except Bool (δ × Rat) × List Nat)
  | [] => none
  | .ok d c :: _ => some (.ok (d, c), waits)
  | .err rl :: rest =>
      if rl = true ∧ retryCount < maxRetries then
        retryLoop (retryCount + 1) (waits ++ [2 ^ (retryCount + 1) * 1000]) rest
      else
        some (.error rl, waits)

/-! ## Bounded-concurrency dispatch
(`src/unnamed/part_002` lines 201-216, `src/App.tsx` lines 70-88). -/

/-- `const CONCURRENCY_LIMIT = 3` in `processQueue` (`src/unnamed/part_002`
line 201). -/
def CONCURRENCY_LIMIT_processQueue : Nat := 3

/-- `const CONCURRENCY_LIMIT = 5` in `handleFileUpload` (`src/App.tsx`
line 71). -/
def CONCURRENCY_LIMIT_handleFileUpload : Nat := 5

/-- The admission loop `for (const item of items) { if (activePromises.size >=
CONCURRENCY_LIMIT) await Promise.race(activePromises); ... activePromises.add
(promise); promise.then(() => activePromises.delete(promise)) }`.

One list entry per work item: its value is how many in-flight calls complete
(and are deleted from `activePromises` by their `.then` handlers, which run
before the racing continuation resumes) while the loop is suspended at
`Promise.race` for that item; when the set is below capacity the loop body
runs without suspending, so no completion can interleave and the entry is
unused. For each item the result records `(pre, post)`: the size of the
in-flight set just before and just after the item's call is started. Between
admissions the in-flight count only decreases, so these are the candidate
maxima of the in-flight count over the whole run. -/
def admissionSteps (limit : Nat) : List Nat → Nat → List (Nat × Nat)
  | [], _ => []
  | c :: cs, inflight =>
      let pre := if limit ≤ inflight then inflight - c else inflight
      (pre, pre + 1) :: admissionSteps limit cs (pre + 1)

/-! ## Progress accounting
(`src/unnamed/part_002` lines 165-199, `src/App.tsx` lines 62-67). -/

/-- The `setProgress` functional update run in the `finally` block of
`processItem`/`processFile` after each item completes (success or failure):
`prev => { if (!prev) return { current: 1, total: totalItems }; return
{ ...prev, current: Math.min(prev.current + 1, totalItems) } }`. -/
def progressUpdate (totalItems : Nat) : Option (Nat × Nat) → Option (Nat × Nat)
  | none => some (1, totalItems)
  | some (c, t) => some (min (c + 1) totalItems, t)

/-- The progress state after `k` item completions in a run over `totalItems`
items: `processQueue` starts with `setProgress({ current: 0, total:
totalItems })` and each completion applies `progressUpdate` once. -/
def progressAfter (totalItems : Nat) : Nat → Option (Nat × Nat)
  | 0 => some (0, totalItems)
  | k + 1 => progressUpdate totalItems (progressAfter totalItems k)

/-! ## Serial group assignment for PDF pages
(`src/unnamed/part_002` lines 118-151, `src/unnamed/part_003` lines 29-67). -/

/-- The body of `rawImages.forEach((base64, index) => ...)` in the Mix-mode
branch of `handleFileUpload` (`src/unnamed/part_002` lines 124-135):
`if (index > 0 && index % 3 === 0) currentGroupId = crypto.randomUUID();`
then push the page with `currentGroupId`. UUIDs are modelled as consecutive
naturals: `cur` is the current group token and `fresh` the next unused one.
Returns the tagged pages and the next unused token. -/
def serialGroupIds {α : Type} : List α → Nat → Nat → Nat → List (α × Nat) × Nat
  | [], _, _, fresh => ([], fresh)
  | p :: rest, index, cur, fresh =>
      if 0 < index ∧ index % 3 = 0 then
        let r := serialGroupIds rest (index + 1) fresh (fresh + 1)
        ((p, fresh) :: r.1, r.2)
      else
        let r := serialGroupIds rest (index + 1) cur fresh
        ((p, cur) :: r.1, r.2)

/-- `let currentGroupId = crypto.randomUUID();` (consuming token `fresh`)
followed by the `forEach` of `serialGroupIds`, as in `handleFileUpload`
(`src/unnamed/part_002` lines 123-135). -/
def assignSerialGroups {α : Type} (rawImages : List α) (fresh : Nat) :
    List (α × Nat) × Nat :=
  serialGroupIds rawImages 0 fresh (fresh + 1)

/-- The 1-based page loop of `convertPdfToImages` (`src/unnamed/part_003`
lines 39-61): `i` runs from 1 to `totalPages`, and
`if (i > 1 && (i - 1) % 3 === 0) currentGroupId = crypto.randomUUID();`. -/
def convertPdfGroupIds {α : Type} : List α → Nat → Nat → Nat → List (α × Nat)
  | [], _, _, _ => []
  | p :: rest, i, cur, fresh =>
      if 1 < i ∧ (i - 1) % 3 = 0 then
        (p, fresh) :: convertPdfGroupIds rest (i + 1) fresh (fresh + 1)
      else
        (p, cur) :: convertPdfGroupIds rest (i + 1) cur fresh

/-- `convertPdfToImages` group assignment (`src/unnamed/part_003` lines
29-67), starting with fresh token 0 for `currentGroupId` and `i = 1`. -/
def convertPdfToImagesGroups {α : Type} (pages : List α) : List (α × Nat) :=
  convertPdfGroupIds pages 1 0 1

/-! ## Paired (Separate) mode queue construction
(`src/unnamed/part_002` lines 229-265). -/

/-- One entry of `itemsToProcess` built by `handleProcessSeparate`:
`{ base64, groupId, predefinedType }` with a non-null groupId. -/
structure SepItem where
  base64 : String
  groupId : Nat
  predefinedType : PageType
  deriving DecidableEq, Repr

/-- One conditional push `if (separateImages.pK[i]) itemsToProcess.push({...})`
from `handleProcessSeparate` (lines 248-256): `bucket[i]` is truthy exactly
when the index is in range and the string is non-empty. -/
def bucketItemAt (bucket : List String) (i : Nat) (gid : Nat) (t : PageType) :
    List SepItem :=
  match bucket[i]? with
  | some s => if s = "" then [] else [⟨s, gid, t⟩]
  | none => []

/-- `handleProcessSeparate`'s queue construction (lines 230-257):
`maxLen = Math.max(len1, len2, len3)`; for each `i < maxLen` a fresh
`groupId = crypto.randomUUID()` (modelled as the token `i`, the i-th fresh
UUID of the loop) and up to three pushes, bucket 1 with
`PageType.STUDENT_INFO`, bucket 2 with `VIBE_MATCH`, bucket 3 with
`EDU_STATS`, in that order. -/
def buildSeparateQueue (p1 p2 p3 : List String) : List SepItem :=
  ((List.range (max (max p1.length p2.length) p3.length)).map fun i =>
    bucketItemAt p1 i i PageType.studentInfo ++
      bucketItemAt p2 i i PageType.vibeMatch ++
      bucketItemAt p3 i i PageType.eduStats).flatten

/-! ## VibeMatch response normalization
(`src/services/geminiService.ts` lines 189-223). -/

/-- The nested `answers` object of the VibeMatch oracle response
(`schemaVibeMatch`, geminiService.ts lines 26-54): `q1..q14`, each an
integer or null. -/
structure VibeAnswers where
  q1 : Option Int
  q2 : Option Int
  q3 : Option Int
  q4 : Option Int
  q5 : Option Int
  q6 : Option Int
  q7 : Option Int
  q8 : Option Int
  q9 : Option Int
  q10 : Option Int
  q11 : Option Int
  q12 : Option Int
  q13 : Option Int
  q14 : Option Int
  deriving DecidableEq, Repr

/-- The parsed VibeMatch oracle response (`JSON.parse` result at
geminiService.ts line 193): `answers` and `handwrittenStatement` may be
absent (`none`). -/
structure VibeParsed where
  answers : Option VibeAnswers
  handwrittenStatement : Option String
  studentId : String
  confidenceScore : Rat
  deriving DecidableEq, Repr

/-- The flattened per-question data object built at geminiService.ts lines
198-203: `{ ...parsed.answers, handwrittenStatement: ..., studentId: ... }`. -/
structure VibeFlatData where
  q1 : Option Int
  q2 : Option Int
  q3 : Option Int
  q4 : Option Int
  q5 : Option Int
  q6 : Option Int
  q7 : Option Int
  q8 : Option Int
  q9 : Option Int
  q10 : Option Int
  q11 : Option Int
  q12 : Option Int
  q13 : Option Int
  q14 : Option Int
  handwrittenStatement : String
  studentId : String
  deriving DecidableEq, Repr

/-- JS `a || b` on a possibly-absent string `a`: the result is `a` unless `a`
is falsy (`undefined`, `null` or the empty string), in which case it is `b`. -/
def jsOrString : Option String → String → String
  | some s, d => if s = "" then d else s
  | none, d => d

/-- Shape of the `data` field returned by `processOmrImage` for a VibeMatch
call: `flattened` from the branch at lines 196-206 (taken when
`parsed.answers` is truthy), `unflattened` from the fallback at lines
216-223 (the `rest` destructuring plus the `=== undefined` repair at lines
219-221; `answers` was falsy, so `rest` holds only the statement and id). -/
inductive VibeRespData where
  | flattened (d : VibeFlatData)
  | unflattened (handwrittenStatement : String) (studentId : String)
  deriving DecidableEq, Repr

/-- The success-path handling of a parsed VibeMatch response in
`processOmrImage` (geminiService.ts lines 196-223), producing the returned
`data` and `confidenceScore`. -/
def processVibeSuccess (parsed : VibeParsed) : VibeRespData × Rat :=
  match parsed.answers with
  | some a =>
      (.flattened
        { q1 := a.q1, q2 := a.q2, q3 := a.q3, q4 := a.q4, q5 := a.q5
          q6 := a.q6, q7 := a.q7, q8 := a.q8, q9 := a.q9, q10 := a.q10
          q11 := a.q11, q12 := a.q12, q13 := a.q13, q14 := a.q14
          handwrittenStatement := jsOrString parsed.handwrittenStatement ""
          studentId := parsed.studentId },
       parsed.confidenceScore)
  | none =>
      (.unflattened (parsed.handwrittenStatement.getD "") parsed.studentId,
       parsed.confidenceScore)

/-! ## Batch run and status
(`src/unnamed/part_002` lines 165-227). -/

/-- What a `processQueue` run leaves behind: the records appended to the
store during the run, the `status` set after `Promise.all`, and the error
message set alongside it (lines 218-226). -/
structure BatchOutcome (δ : Type) where
  insertedRecords : List (StudentRecord δ)
  status : ScanStatus
  errorMsg : Option String
  deriving DecidableEq, Repr

/-- Whether a `processOmrImage` call outcome is a thrown error. -/
def callFailed {δ : Type} : Except Bool (OmrResult δ) → Bool
  | .error _ => true
  | .ok _ => false

/-- `processQueue` (`src/unnamed/part_002` lines 165-227) over a queue of
work items paired with their `processOmrImage` call outcomes. Each item runs
`processItem` (fresh id and timestamp modelled by the item's queue index);
successful items insert their record, failures count into `failCount`; after
the run, `failCount === totalItems` sets `ScanStatus.ERROR` with the quota
hint, otherwise `ScanStatus.SUCCESS` (lines 218-226). -/
def runProcessQueue {δ : Type}
    (pairs : List (WorkItem × Except Bool (OmrResult δ))) : BatchOutcome δ :=
  let totalItems := pairs.length
  let inserted := pairs.enum.filterMap fun ip => processItem ip.2.1 ip.2.2 ip.1 ip.1
  let failCount := (pairs.filter fun p => callFailed p.2).length
  if failCount = totalItems then
    { insertedRecords := inserted
      status := .error
      errorMsg := some "Failed to process items. Please check your API quota." }
  else
    { insertedRecords := inserted, status := .success, errorMsg := none }

/-! ## File preparation and the Mix-mode upload pipeline
(`src/unnamed/part_002` lines 111-163, `src/unnamed/part_003` lines 78-119). -/

/-- One input file of the Mix-mode `handleFileUpload` loop as it behaves at
runtime. Two failure shapes exist and they are not interchangeable:
`extractImagesFromPdf` wraps its body in `try/catch` and calls `reject(e)`
(`src/unnamed/part_002` lines 38-63), so a failing PDF conversion makes
`await` THROW into the loop's `catch`; the image branch (lines 138-143)
registers only `reader.onload` on its promise — no `onerror`, no `reject` —
so a failing image read leaves the promise forever unsettled and `await p`
SUSPENDS the loop without ever throwing. -/
inductive InputFile where
  | imageFile (base64 : String)   -- image whose read resolves
  | pdfFile (pages : List String) -- PDF whose conversion resolves
  | badPdf                        -- PDF whose conversion rejects (throws)
  | badImage                      -- image whose read fails (never settles)
  deriving DecidableEq, Repr

/-- Result of the preparation loop: the assembled `itemsToProcess` with the
next unused UUID token, or `thrown` (an exception reached the `catch` at
`src/unnamed/part_002` lines 152-158), or `stuck` (the loop is suspended
forever at an `await` on a promise that never settles, so no code after it
ever runs). -/
inductive PrepResult where
  | ok (items : List WorkItem) (fresh : Nat)
  | thrown
  | stuck
  deriving DecidableEq, Repr

/-- The `try { for (const file of fileList) ... }` preparation loop of the
Mix-mode `handleFileUpload` (`src/unnamed/part_002` lines 117-151): images
push one ungrouped item, PDFs push one item per page with serial group ids
(fresh UUID tokens threaded through `fresh`); the first failing PDF
conversion throws out of the loop, and the first failing image read suspends
the loop forever (its `FileReader` promise has no error path); later files
are not reached in either case. -/
def prepareItemsAux : List InputFile → Nat → PrepResult
  | [], fresh => .ok [] fresh
  | .badPdf :: _, _ => .thrown
  | .badImage :: _, _ => .stuck
  | .imageFile b :: rest, fresh =>
      match prepareItemsAux rest fresh with
      | .ok tail f2 =>
          .ok ({ base64 := b, groupId := none, predefinedType := none } :: tail) f2
      | .thrown => .thrown
      | .stuck => .stuck
  | .pdfFile pages :: rest, fresh =>
      let r := assignSerialGroups pages fresh
      match prepareItemsAux rest r.2 with
      | .ok tail f2 =>
          .ok ((r.1.map fun pg =>
              { base64 := pg.1, groupId := some pg.2, predefinedType := none })
            ++ tail) f2
      | .thrown => .thrown
      | .stuck => .stuck

/-- What one Mix-mode `handleFileUpload` run leaves behind: the final
`status` and `errorMsg`, how many `processOmrImage` calls were dispatched,
and the records inserted into the store. -/
structure UploadOutcome (δ : Type) where
  status : ScanStatus
  errorMsg : Option String
  recognitionCalls : Nat
  insertedRecords : List (StudentRecord δ)
  deriving DecidableEq, Repr

/-- The Mix-mode `handleFileUpload` (`src/unnamed/part_002` lines 111-163):
prepare all files. If preparation throws, the `catch` sets
`ScanStatus.ERROR` and the message "Failed to read files (PDF conversion or
image reading failed)." and returns before `processQueue` is ever called
(zero recognition calls, zero insertions). If preparation suspends forever
(failing image read), nothing after the `await` runs: the last observable
state stands — `setStatus(ScanStatus.SCANNING)` from line 112 and the
`setErrorMsg(null)` from line 70 — and again no recognition call is
dispatched and no record inserted. Otherwise run `processQueue` on the
assembled queue, the oracle outcome of the i-th item given by `oracle i`. -/
def handleFileUploadMix {δ : Type} (files : List InputFile)
    (oracle : Nat → Except Bool (OmrResult δ)) : UploadOutcome δ :=
  match prepareItemsAux files 0 with
  | .thrown =>
      { status := .error
        errorMsg :=
          some "Failed to read files (PDF conversion or image reading failed)."
        recognitionCalls := 0
        insertedRecords := [] }
  | .stuck =>
      { status := .scanning
        errorMsg := none
        recognitionCalls := 0
        insertedRecords := [] }
  | .ok items _ =>
      let b := runProcessQueue (items.enum.map fun ii => (ii.2, oracle ii.1))
      { status := b.status
        errorMsg := b.errorMsg
        recognitionCalls := items.length
        insertedRecords := b.insertedRecords }

/-! ## Theorems -/

/-- C1 (code bug witness-by-evaluation): for every successfully processed
work item, `processItem` stores `result.pageType`, but the object returned by
`processOmrImage` carries no `pageType` property at all — the switch in
`geminiService.ts` has no `MIX` case and both return statements (lines
197-205 and 223) build only `{ data, confidenceScore }` — so the assembled
record's `pageType` is `undefined` (`none`), never the variant detected by
the recognition call. -/
theorem C1_mix_record_pageType_undefined {δ : Type} (item : WorkItem)
    (res : OmrResult δ) (freshId now : Nat) :
    (processItem item (Except.ok res) freshId now).map StudentRecord.pageType
      = some none :=
  rfl

/-- C4 helper: the progress state after `k` completions in a run over `n`
items is exactly `(min k n, n)`. -/
theorem progressAfter_eq (n k : Nat) :
    progressAfter n k = some (min k n, n) := by
  induction k with
  | zero => simp [progressAfter]
  | succ k ih =>
      simp only [progressAfter, ih, progressUpdate]
      have h : (min k n + 1) ⊓ n = (k + 1) ⊓ n := by omega
      rw [h]

/-- C4: for every non-empty batch of `n` work items, progress starts at
`(0, n)`, the completed count increases by exactly 1 after each item's
completion (success or failure alike, since the update runs in the item's
`finally` block), never exceeds `n`, and after all `n` completions the
progress reads exactly `(n, n)`. -/
theorem C4_progress_counts (n : Nat) (_hn : 1 ≤ n) :
    progressAfter n 0 = some (0, n) ∧
    (∀ k, k < n → progressAfter n (k + 1) = some (k + 1, n)) ∧
    progressAfter n n = some (n, n) ∧
    (∀ k c t, progressAfter n k = some (c, t) → c ≤ t) := by
  refine ⟨by simp [progressAfter], ?_, ?_, ?_⟩
  · intro k hk
    rw [progressAfter_eq]
    have h : min (k + 1) n = k + 1 := by omega
    rw [h]
  · rw [progressAfter_eq]
    simp
  · intro k c t h
    rw [progressAfter_eq] at h
    cases h
    omega

/-- C4 witness: the progress invariants at the concrete batch size 2. -/
theorem C4_progress_counts_witness :
    progressAfter 2 0 = some (0, 2) ∧
    (∀ k, k < 2 → progressAfter 2 (k + 1) = some (k + 1, 2)) ∧
    progressAfter 2 2 = some (2, 2) ∧
    (∀ k c t, progressAfter 2 k = some (c, t) → c ≤ t) :=
  C4_progress_counts 2 (by decide)

/-- C10: `updateRecord id newData` maps the record list pointwise: every
record keeps its `id`, `pageType`, `scannedAt`, `confidenceScore`,
`originalImageUrl` and `linkedGroupId`; a record whose id matches gets its
`data` replaced by `newData`, and a record whose id differs is entirely
unchanged. -/
theorem C10_updateRecord_frame {δ : Type} (recs : List (StudentRecord δ))
    (id : Nat) (newData : δ) :
    List.Forall₂ (fun r rNew =>
      rNew.id = r.id ∧ rNew.pageType = r.pageType ∧
      rNew.scannedAt = r.scannedAt ∧
      rNew.confidenceScore = r.confidenceScore ∧
      rNew.originalImageUrl = r.originalImageUrl ∧
      rNew.linkedGroupId = r.linkedGroupId ∧
      (r.id = id → rNew.data = newData) ∧ (r.id ≠ id → rNew = r))
      recs (updateRecord id newData recs) := by
  induction recs with
  | nil => exact List.Forall₂.nil
  | cons r rest ih =>
      simp only [updateRecord, List.map] at ih ⊢
      refine List.Forall₂.cons ?_ ih
      by_cases h : r.id = id
      · simp [h]
      · simp [h]

/-- C3: in the retry loop of `processOmrImage`, a throttling failure is
retried after a wait of `2^attempt` seconds — 2000 ms, then 4000 ms, then
8000 ms — with at most `maxRetries = 3` retries, after which the error
propagates to the caller; a non-throttling failure propagates immediately
with no further wait, whatever the current retry count. -/
theorem C3_retry_backoff {δ : Type} :
    (∀ (d : δ) (c : Rat) (rest : List (OracleReply δ)),
      retryLoop 0 [] (.ok d c :: rest) = some (.ok (d, c), [])) ∧
    (∀ (d : δ) (c : Rat) (rest : List (OracleReply δ)),
      retryLoop 0 [] (.err true :: .ok d c :: rest)
        = some (.ok (d, c), [2000])) ∧
    (∀ (d : δ) (c : Rat) (rest : List (OracleReply δ)),
      retryLoop 0 [] (.err true :: .err true :: .ok d c :: rest)
        = some (.ok (d, c), [2000, 4000])) ∧
    (∀ (d : δ) (c : Rat) (rest : List (OracleReply δ)),
      retryLoop 0 [] (.err true :: .err true :: .err true :: .ok d c :: rest)
        = some (.ok (d, c), [2000, 4000, 8000])) ∧
    (∀ (e : Bool) (rest : List (OracleReply δ)),
      retryLoop 0 [] (.err true :: .err true :: .err true :: .err e :: rest)
        = some (.error e, [2000, 4000, 8000])) ∧
    (∀ (rc : Nat) (w : List Nat) (rest : List (OracleReply δ)),
      retryLoop rc w (.err false :: rest) = some (.error false, w)) := by
  refine ⟨fun d c rest => rfl, fun d c rest => ?_, fun d c rest => ?_,
    fun d c rest => ?_, fun e rest => ?_, fun rc w rest => ?_⟩
  · simp [retryLoop, maxRetries]
  · simp [retryLoop, maxRetries]
  · simp [retryLoop, maxRetries]
  · cases e <;> simp [retryLoop, maxRetries]
  · simp [retryLoop]

/-- C2 helper: admission-control invariant. If the limit is positive, the
in-flight count starts at or below the limit, and every `Promise.race`
suspension sees at least one completion, then at every admission the
in-flight set is strictly below the limit just before the new call starts
and at or below the limit just after. -/
theorem admissionSteps_bound (limit : Nat) (hl : 1 ≤ limit) :
    ∀ (cs : List Nat) (inflight : Nat), inflight ≤ limit →
      (∀ c ∈ cs, 1 ≤ c) →
      ∀ pr ∈ admissionSteps limit cs inflight, pr.1 < limit ∧ pr.2 ≤ limit := by
  intro cs
  induction cs with
  | nil => intro inflight _ _ pr hpr; simp [admissionSteps] at hpr
  | cons c cs ih =>
      intro inflight hin hcs pr hpr
      simp only [admissionSteps, List.mem_cons] at hpr
      have hc : 1 ≤ c := hcs c (List.mem_cons_self c cs)
      have hlt : (if limit ≤ inflight then inflight - c else inflight) < limit := by
        by_cases h : limit ≤ inflight
        · rw [if_pos h]; omega
        · rw [if_neg h]; omega
      rcases hpr with h | h
      · rw [h]; exact ⟨hlt, by omega⟩
      · exact ih _ (by omega) (fun x hx => hcs x (List.mem_cons_of_mem c hx)) pr h

/-- C2: during a batch run, the dispatcher loop of `processQueue`
(`CONCURRENCY_LIMIT = 3`) and of `App.tsx`'s `handleFileUpload`
(`CONCURRENCY_LIMIT = 5`) never has more than `CONCURRENCY_LIMIT`
recognition calls concurrently pending: for every schedule of completions
(each `Promise.race` suspension ending with at least one in-flight call
completed and removed), every admission step starts the next call with
strictly fewer than `CONCURRENCY_LIMIT` calls in flight — so when the set
was at capacity an earlier call completed first — and leaves at most
`CONCURRENCY_LIMIT` in flight. Between admissions the in-flight count only
decreases, so these bounds cover every point of the run. -/
theorem C2_concurrency_ceiling (cs : List Nat) (hcs : ∀ c ∈ cs, 1 ≤ c) :
    (∀ pr ∈ admissionSteps CONCURRENCY_LIMIT_processQueue cs 0,
        pr.1 < CONCURRENCY_LIMIT_processQueue ∧
        pr.2 ≤ CONCURRENCY_LIMIT_processQueue) ∧
    (∀ pr ∈ admissionSteps CONCURRENCY_LIMIT_handleFileUpload cs 0,
        pr.1 < CONCURRENCY_LIMIT_handleFileUpload ∧
        pr.2 ≤ CONCURRENCY_LIMIT_handleFileUpload) :=
  ⟨admissionSteps_bound CONCURRENCY_LIMIT_processQueue (by decide) cs 0
      (by decide) hcs,
   admissionSteps_bound CONCURRENCY_LIMIT_handleFileUpload (by decide) cs 0
      (by decide) hcs⟩

/-- C2 witness: a concrete 7-item run in which each capacity wait sees one
or two completions; the bounds hold at both limits. -/
theorem C2_concurrency_ceiling_witness :
    (∀ c ∈ [1, 1, 1, 2, 1, 1, 1], 1 ≤ c) ∧
    (∀ pr ∈ admissionSteps CONCURRENCY_LIMIT_processQueue [1, 1, 1, 2, 1, 1, 1] 0,
        pr.1 < CONCURRENCY_LIMIT_processQueue ∧
        pr.2 ≤ CONCURRENCY_LIMIT_processQueue) ∧
    (∀ pr ∈ admissionSteps CONCURRENCY_LIMIT_handleFileUpload [1, 1, 1, 2, 1, 1, 1] 0,
        pr.1 < CONCURRENCY_LIMIT_handleFileUpload ∧
        pr.2 ≤ CONCURRENCY_LIMIT_handleFileUpload) := by
  have h : ∀ c ∈ [1, 1, 1, 2, 1, 1, 1], 1 ≤ c := by decide
  have hb := C2_concurrency_ceiling [1, 1, 1, 2, 1, 1, 1] h
  exact ⟨h, hb.1, hb.2⟩

/-- C5 helper: the group token of the page at absolute index `i` is
`f + i / 3`, where `f` is the token generated before the loop. Stated with
the loop invariant `cur = f + (index - 1) / 3` and `fresh = cur + 1`. -/
theorem serialGroupIds_snd_eq {α : Type} (pages : List α) :
    ∀ (index f cur fresh : Nat), cur = f + (index - 1) / 3 → fresh = cur + 1 →
      ((serialGroupIds pages index cur fresh).1.map Prod.snd)
        = (List.range' index pages.length).map (fun i => f + i / 3) := by
  induction pages with
  | nil => intro index f cur fresh _ _; simp [serialGroupIds]
  | cons p rest ih =>
      intro index f cur fresh h1 h2
      by_cases h : 0 < index ∧ index % 3 = 0
      · simp only [serialGroupIds, if_pos h, List.map, List.length_cons,
          List.range']
        rw [ih (index + 1) f fresh (fresh + 1) (by omega) rfl]
        have he : fresh = f + index / 3 := by omega
        rw [he]
      · simp only [serialGroupIds, if_neg h, List.map, List.length_cons,
          List.range']
        rw [ih (index + 1) f cur fresh (by omega) h2]
        have he : cur = f + index / 3 := by omega
        rw [he]

/-- C5: in Mix/standard mode, serial group identifiers for the pages of one
multi-page document follow zero-based page position: the page at index `i`
receives the `(i / 3)`-th freshly generated identifier (so pages 0,1,2 share
the first, 3,4,5 the next, and so on, a new identifier being generated
exactly when `index > 0 && index % 3 === 0`); in particular a 7-page
document — under both the current `handleFileUpload` assignment and the
older `convertPdfToImages` one — yields the token sequence
`[0,0,0,1,1,1,2]`: exactly 3 distinct identifiers, shared by pages
`{0,1,2}`, `{3,4,5}` and `{6}`. -/
theorem C5_serial_grouping :
    (∀ {α : Type} (pages : List α) (f : Nat),
      ((assignSerialGroups pages f).1.map Prod.snd)
        = (List.range pages.length).map (fun i => f + i / 3)) ∧
    (((assignSerialGroups ["p0", "p1", "p2", "p3", "p4", "p5", "p6"] 0).1.map
        Prod.snd) = [0, 0, 0, 1, 1, 1, 2]) ∧
    ((convertPdfToImagesGroups ["p0", "p1", "p2", "p3", "p4", "p5", "p6"]).map
        Prod.snd = [0, 0, 0, 1, 1, 1, 2]) ∧
    ([0, 0, 0, 1, 1, 1, 2].dedup.length = 3) := by
  refine ⟨?_, by decide, by decide, by decide⟩
  intro α pages f
  rw [assignSerialGroups, serialGroupIds_snd_eq pages 0 f f (f + 1) (by simp) rfl,
    List.range_eq_range']

/-- C6 helper: membership in one conditional bucket push. -/
theorem mem_bucketItemAt (bucket : List String) (i gid : Nat) (t : PageType)
    (xb : String) (xg : Nat) (xt : PageType) :
    (⟨xb, xg, xt⟩ : SepItem) ∈ bucketItemAt bucket i gid t ↔
      bucket[i]? = some xb ∧ xb ≠ "" ∧ xg = gid ∧ xt = t := by
  unfold bucketItemAt
  cases hb : bucket[i]? with
  | none => simp
  | some s =>
      rcases eq_or_ne s "" with rfl | hs
      · simp only [if_true, reduceIte, List.not_mem_nil, false_iff,
          Option.some.injEq]
        rintro ⟨h1, h2, -⟩
        exact h2 h1.symm
      · simp only [if_neg hs, List.mem_singleton, SepItem.mk.injEq,
          Option.some.injEq]
        constructor
        · rintro ⟨rfl, rfl, rfl⟩
          exact ⟨rfl, hs, rfl, rfl⟩
        · rintro ⟨rfl, -, rfl, rfl⟩
          exact ⟨rfl, rfl, rfl⟩

/-- C6 helper: full membership characterization of the Separate-mode queue:
an item is enqueued exactly when its bucket (determined by its variant)
holds a truthy entry at the item's index, the item's `groupId` being that
index's fresh token. -/
theorem mem_buildSeparateQueue (p1 p2 p3 : List String)
    (xb : String) (xg : Nat) (xt : PageType) :
    (⟨xb, xg, xt⟩ : SepItem) ∈ buildSeparateQueue p1 p2 p3 ↔
      ((xt = PageType.studentInfo ∧ p1[xg]? = some xb ∧ xb ≠ "") ∨
       (xt = PageType.vibeMatch ∧ p2[xg]? = some xb ∧ xb ≠ "") ∨
       (xt = PageType.eduStats ∧ p3[xg]? = some xb ∧ xb ≠ "")) := by
  unfold buildSeparateQueue
  rw [List.mem_flatten]
  constructor
  · rintro ⟨l, hl, hx⟩
    obtain ⟨j, hj, rfl⟩ := List.mem_map.mp hl
    rcases List.mem_append.mp hx with hx12 | hx3
    · rcases List.mem_append.mp hx12 with hx1 | hx2
      · obtain ⟨h1, h2, rfl, rfl⟩ :=
          (mem_bucketItemAt p1 j j PageType.studentInfo xb xg xt).mp hx1
        exact Or.inl ⟨rfl, h1, h2⟩
      · obtain ⟨h1, h2, rfl, rfl⟩ :=
          (mem_bucketItemAt p2 j j PageType.vibeMatch xb xg xt).mp hx2
        exact Or.inr (Or.inl ⟨rfl, h1, h2⟩)
    · obtain ⟨h1, h2, rfl, rfl⟩ :=
        (mem_bucketItemAt p3 j j PageType.eduStats xb xg xt).mp hx3
      exact Or.inr (Or.inr ⟨rfl, h1, h2⟩)
  · rintro (⟨rfl, h1, h2⟩ | ⟨rfl, h1, h2⟩ | ⟨rfl, h1, h2⟩)
    · refine ⟨_, List.mem_map.mpr ⟨xg, List.mem_range.mpr ?_, rfl⟩,
        List.mem_append.mpr (Or.inl (List.mem_append.mpr (Or.inl
          ((mem_bucketItemAt p1 xg xg PageType.studentInfo xb xg
            PageType.studentInfo).mpr ⟨h1, h2, rfl, rfl⟩))))⟩
      have hlen := (List.getElem?_eq_some.mp h1).1
      omega
    · refine ⟨_, List.mem_map.mpr ⟨xg, List.mem_range.mpr ?_, rfl⟩,
        List.mem_append.mpr (Or.inl (List.mem_append.mpr (Or.inr
          ((mem_bucketItemAt p2 xg xg PageType.vibeMatch xb xg
            PageType.vibeMatch).mpr ⟨h1, h2, rfl, rfl⟩))))⟩
      have hlen := (List.getElem?_eq_some.mp h1).1
      omega
    · refine ⟨_, List.mem_map.mpr ⟨xg, List.mem_range.mpr ?_, rfl⟩,
        List.mem_append.mpr (Or.inr
          ((mem_bucketItemAt p3 xg xg PageType.eduStats xb xg
            PageType.eduStats).mpr ⟨h1, h2, rfl, rfl⟩))⟩
      have hlen := (List.getElem?_eq_some.mp h1).1
      omega

/-- C6: in Separate mode (`handleProcessSeparate`), provided the bucket
entries are genuine data URLs (non-empty strings), the work queue contains,
for each positional index `i` from 0 up to the longest bucket's length minus
one, exactly the items of the buckets that have an entry at `i` — bucket 1
forced to `Page 1 (Info)`, bucket 2 to `Page 2 (VibeMatch)`, bucket 3 to
`Page 3 (EduStats)` — all three sharing the `i`-th freshly generated group
identifier, and a bucket with no entry at `i` contributing nothing. -/
theorem C6_separate_queue (p1 p2 p3 : List String)
    (hne : ∀ s ∈ p1 ++ p2 ++ p3, s ≠ "") (i : Nat) (s : String) :
    ((⟨s, i, PageType.studentInfo⟩ : SepItem) ∈ buildSeparateQueue p1 p2 p3 ↔
        p1[i]? = some s) ∧
    ((⟨s, i, PageType.vibeMatch⟩ : SepItem) ∈ buildSeparateQueue p1 p2 p3 ↔
        p2[i]? = some s) ∧
    ((⟨s, i, PageType.eduStats⟩ : SepItem) ∈ buildSeparateQueue p1 p2 p3 ↔
        p3[i]? = some s) := by
  refine ⟨?_, ?_, ?_⟩ <;> rw [mem_buildSeparateQueue] <;> constructor
  · rintro (⟨-, h1, -⟩ | ⟨h, -⟩ | ⟨h, -⟩)
    · exact h1
    · exact absurd h (by simp)
    · exact absurd h (by simp)
  · intro h
    exact Or.inl ⟨rfl, h,
      hne s (List.mem_append.mpr (Or.inl (List.mem_append.mpr
        (Or.inl (List.getElem?_mem h)))))⟩
  · rintro (⟨h, -⟩ | ⟨-, h1, -⟩ | ⟨h, -⟩)
    · exact absurd h (by simp)
    · exact h1
    · exact absurd h (by simp)
  · intro h
    exact Or.inr (Or.inl ⟨rfl, h,
      hne s (List.mem_append.mpr (Or.inl (List.mem_append.mpr
        (Or.inr (List.getElem?_mem h)))))⟩)
  · rintro (⟨h, -⟩ | ⟨h, -⟩ | ⟨-, h1, -⟩)
    · exact absurd h (by simp)
    · exact absurd h (by simp)
    · exact h1
  · intro h
    exact Or.inr (Or.inr ⟨rfl, h,
      hne s (List.mem_append.mpr (Or.inr (List.getElem?_mem h)))⟩)

/-- C6 witness: concrete unequal buckets `["a"]`, `["b", "c"]`, `[]`: the
bucket-2 item at index 0 is enqueued with group token 0 and the forced
`Page 2 (VibeMatch)` variant. -/
theorem C6_separate_queue_witness :
    (∀ s ∈ ["a"] ++ ["b", "c"] ++ ([] : List String), s ≠ "") ∧
    ((⟨"b", 0, PageType.vibeMatch⟩ : SepItem) ∈
        buildSeparateQueue ["a"] ["b", "c"] [] ↔ ["b", "c"][0]? = some "b") := by
  have h : ∀ s ∈ ["a"] ++ ["b", "c"] ++ ([] : List String), s ≠ "" := by decide
  exact ⟨h, (C6_separate_queue ["a"] ["b", "c"] [] h 0 "b").2.1⟩

/-- C7: for a successful VibeMatch recognition whose parsed response carries
the nested `answers` object, `processOmrImage` returns the flattened data:
`q1..q14` of `answers` appear directly on `data`, `studentId` is copied, the
confidence score is passed through, and `data.handwrittenStatement` is the
empty string whenever the response's `handwrittenStatement` is absent or
falsy (the `|| ""` default), otherwise the response's value. -/
theorem C7_vibe_flatten (parsed : VibeParsed) (a : VibeAnswers)
    (ha : parsed.answers = some a) :
    ∃ d : VibeFlatData,
      processVibeSuccess parsed
        = (VibeRespData.flattened d, parsed.confidenceScore) ∧
      d.q1 = a.q1 ∧ d.q2 = a.q2 ∧ d.q3 = a.q3 ∧ d.q4 = a.q4 ∧ d.q5 = a.q5 ∧
      d.q6 = a.q6 ∧ d.q7 = a.q7 ∧ d.q8 = a.q8 ∧ d.q9 = a.q9 ∧
      d.q10 = a.q10 ∧ d.q11 = a.q11 ∧ d.q12 = a.q12 ∧ d.q13 = a.q13 ∧
      d.q14 = a.q14 ∧
      d.studentId = parsed.studentId ∧
      ((parsed.handwrittenStatement = none ∨
          parsed.handwrittenStatement = some "") →
        d.handwrittenStatement = "") ∧
      (∀ s, parsed.handwrittenStatement = some s → s ≠ "" →
        d.handwrittenStatement = s) := by
  refine ⟨_, by rw [processVibeSuccess, ha], rfl, rfl, rfl, rfl, rfl, rfl, rfl,
    rfl, rfl, rfl, rfl, rfl, rfl, rfl, rfl, ?_, ?_⟩
  · rintro (h | h) <;> simp [jsOrString, h]
  · intro s hs hne
    simp [jsOrString, hs, hne]

/-- C7 witness: a concrete response with all fourteen nested answers and a
missing `handwrittenStatement` flattens to data with `q1..q14` on top and
`handwrittenStatement = ""`. -/
theorem C7_vibe_flatten_witness :
    ∃ d : VibeFlatData,
      processVibeSuccess
        { answers := some
            { q1 := some 3, q2 := some 1, q3 := some 2, q4 := some 4
              q5 := some 5, q6 := some 1, q7 := some 2, q8 := some 3
              q9 := some 4, q10 := some 5, q11 := some 1, q12 := some 2
              q13 := some 3, q14 := some 2 }
          handwrittenStatement := none
          studentId := "100039"
          confidenceScore := 1 }
        = (VibeRespData.flattened d, 1) ∧
      d.q1 = some 3 ∧ d.q14 = some 2 ∧ d.handwrittenStatement = "" := by
  obtain ⟨d, heq, hq1, -, -, -, -, -, -, -, -, -, -, -, -, hq14, -, hmiss, -⟩ :=
    C7_vibe_flatten
      { answers := some
          { q1 := some 3, q2 := some 1, q3 := some 2, q4 := some 4
            q5 := some 5, q6 := some 1, q7 := some 2, q8 := some 3
            q9 := some 4, q10 := some 5, q11 := some 1, q12 := some 2
            q13 := some 3, q14 := some 2 }
        handwrittenStatement := none
        studentId := "100039"
        confidenceScore := 1 }
      { q1 := some 3, q2 := some 1, q3 := some 2, q4 := some 4
        q5 := some 5, q6 := some 1, q7 := some 2, q8 := some 3
        q9 := some 4, q10 := some 5, q11 := some 1, q12 := some 2
        q13 := some 3, q14 := some 2 } rfl
  exact ⟨d, heq, hq1, hq14, hmiss (Or.inl rfl)⟩

/-- C8 helper: a failed `processOmrImage` call assembles no record. -/
theorem processItem_eq_none_of_failed {δ : Type} (item : WorkItem)
    (r : Except Bool (OmrResult δ)) (i t : Nat) (h : callFailed r = true) :
    processItem item r i t = none := by
  cases r with
  | ok _ => simp [callFailed] at h
  | error _ => rfl

/-- C8: after a `processQueue` run over a non-empty batch: if every item's
recognition call failed, the batch status is `ScanStatus.ERROR` with the
quota hint "Failed to process items. Please check your API quota." and no
record was inserted during the run; if at least one item succeeded (whether
or not others failed), the batch status is `ScanStatus.SUCCESS`. -/
theorem C8_batch_status {δ : Type}
    (pairs : List (WorkItem × Except Bool (OmrResult δ)))
    (_hne : 1 ≤ pairs.length) :
    ((∀ p ∈ pairs, callFailed p.2 = true) →
      (runProcessQueue pairs).status = ScanStatus.error ∧
      (runProcessQueue pairs).errorMsg
        = some "Failed to process items. Please check your API quota." ∧
      (runProcessQueue pairs).insertedRecords = []) ∧
    ((∃ p ∈ pairs, callFailed p.2 = false) →
      (runProcessQueue pairs).status = ScanStatus.success) := by
  constructor
  · intro hall
    have hfail : (pairs.filter fun p => callFailed p.2).length = pairs.length := by
      rw [List.filter_eq_self.mpr hall]
    have hrecs : (pairs.enum.filterMap fun ip =>
        processItem ip.2.1 ip.2.2 ip.1 ip.1) = [] := by
      refine List.filterMap_eq_nil_iff.mpr ?_
      intro ip hip
      have hmem : ip.2 ∈ pairs := by
        have := List.mem_map_of_mem Prod.snd hip
        rwa [List.enum_map_snd] at this
      exact processItem_eq_none_of_failed ip.2.1 ip.2.2 ip.1 ip.1
        (hall ip.2 hmem)
    simp only [runProcessQueue, hfail, if_pos rfl, hrecs]
    exact ⟨rfl, rfl, rfl⟩
  · rintro ⟨p, hp, hfp⟩
    have hlt : (pairs.filter fun q => callFailed q.2).length < pairs.length :=
      List.length_filter_lt_length_iff_exists.mpr ⟨p, hp, by simp [hfp]⟩
    simp only [runProcessQueue, if_neg (Nat.ne_of_lt hlt)]

/-- C8 witness: a two-item batch. Both calls failing yields the ERROR status
with the quota hint and an empty insertion list; making one call succeed
yields SUCCESS. -/
theorem C8_batch_status_witness :
    (runProcessQueue [((⟨"imgA", none, none⟩ : WorkItem),
        (Except.error false : Except Bool (OmrResult Nat))),
      (⟨"imgB", none, none⟩, Except.error true)]).status = ScanStatus.error ∧
    (runProcessQueue [((⟨"imgA", none, none⟩ : WorkItem),
        (Except.error false : Except Bool (OmrResult Nat))),
      (⟨"imgB", none, none⟩, Except.error true)]).insertedRecords = [] ∧
    (runProcessQueue [((⟨"imgA", none, none⟩ : WorkItem),
        (Except.ok ⟨7, 1⟩ : Except Bool (OmrResult Nat))),
      (⟨"imgB", none, none⟩, Except.error true)]).status
      = ScanStatus.success := by
  have h1 := C8_batch_status (δ := Nat)
    [(⟨"imgA", none, none⟩, Except.error false),
      (⟨"imgB", none, none⟩, Except.error true)] (by decide)
  have h2 := C8_batch_status (δ := Nat)
    [(⟨"imgA", none, none⟩, Except.ok ⟨7, 1⟩),
      (⟨"imgB", none, none⟩, Except.error true)] (by decide)
  have hall := h1.1 (by decide)
  exact ⟨hall.1, hall.2.2, h2.2 (by decide)⟩

/-- C9 helper: a file that prepares successfully. -/
def isGoodFile : InputFile → Bool
  | .imageFile _ => true
  | .pdfFile _ => true
  | .badPdf => false
  | .badImage => false

/-- C9 helper: after any prefix of successfully preparing files, a failing
PDF conversion makes the whole preparation loop throw, and a failing image
read makes it suspend forever, whatever UUID counter state it is in. -/
theorem prepareItemsAux_append_fail (rest : List InputFile) :
    ∀ (good : List InputFile), (∀ f ∈ good, isGoodFile f = true) →
      ∀ fresh,
        prepareItemsAux (good ++ InputFile.badPdf :: rest) fresh
          = PrepResult.thrown ∧
        prepareItemsAux (good ++ InputFile.badImage :: rest) fresh
          = PrepResult.stuck := by
  intro good
  induction good with
  | nil => intro _ fresh; exact ⟨rfl, rfl⟩
  | cons f tail ih =>
      intro hg fresh
      have htail : ∀ x ∈ tail, isGoodFile x = true :=
        fun x hx => hg x (List.mem_cons_of_mem f hx)
      have hf : isGoodFile f = true := hg f (List.mem_cons_self f tail)
      cases f with
      | imageFile b =>
          have h1 := ih htail fresh
          constructor <;> simp [prepareItemsAux, h1.1, h1.2]
      | pdfFile pages =>
          have h1 := ih htail (assignSerialGroups pages fresh).2
          constructor <;> simp [prepareItemsAux, h1.1, h1.2]
      | badPdf => simp [isGoodFile] at hf
      | badImage => simp [isGoodFile] at hf

/-- C9 counterexample: a Mix-mode batch whose single file is an image whose
read fails. Its `FileReader` promise (part_002 lines 138-143) has no
`onerror` handler, so the preparation loop suspends forever: the status is
not set to `ScanStatus.ERROR` — it stays `SCANNING` — and no error message
is ever set, refuting the claim that an image read failure aborts the batch
with the "Failed to read files" error. -/
theorem C9_image_read_hang_counterexample :
    (handleFileUploadMix (δ := Nat) [InputFile.badImage]
        (fun _ => Except.ok ⟨7, 1⟩)).status ≠ ScanStatus.error ∧
    (handleFileUploadMix (δ := Nat) [InputFile.badImage]
        (fun _ => Except.ok ⟨7, 1⟩)).status = ScanStatus.scanning ∧
    (handleFileUploadMix (δ := Nat) [InputFile.badImage]
        (fun _ => Except.ok ⟨7, 1⟩)).errorMsg = none ∧
    (handleFileUploadMix (δ := Nat) [InputFile.badImage]
        (fun _ => Except.ok ⟨7, 1⟩)).recognitionCalls = 0 ∧
    (handleFileUploadMix (δ := Nat) [InputFile.badImage]
        (fun _ => Except.ok ⟨7, 1⟩)).insertedRecords = [] :=
  ⟨fun h => ScanStatus.noConfusion h, rfl, rfl, rfl, rfl⟩

/-- C9 (amended): during Mix-mode batch assembly, if the first failing file
is a PDF whose conversion fails, the entire batch aborts immediately before
any recognition call is dispatched: the status is set to `ScanStatus.ERROR`
with the message "Failed to read files (PDF conversion or image reading
failed).", no work items are processed and no records are inserted. If the
first failing file is an image whose read fails, the batch equally
dispatches no recognition call, processes no work item and inserts no
record, but — the image branch registering no error handler on its
`FileReader` promise — it stalls at the read instead of aborting: the status
remains `SCANNING` and no error message is set. -/
theorem C9_prep_failure_behavior {δ : Type} (good rest : List InputFile)
    (oracle : Nat → Except Bool (OmrResult δ))
    (hgood : ∀ f ∈ good, isGoodFile f = true) :
    (handleFileUploadMix (good ++ InputFile.badPdf :: rest) oracle =
      { status := ScanStatus.error
        errorMsg :=
          some "Failed to read files (PDF conversion or image reading failed)."
        recognitionCalls := 0
        insertedRecords := [] }) ∧
    (handleFileUploadMix (good ++ InputFile.badImage :: rest) oracle =
      { status := ScanStatus.scanning
        errorMsg := none
        recognitionCalls := 0
        insertedRecords := [] }) := by
  have h := prepareItemsAux_append_fail rest good hgood 0
  constructor
  · unfold handleFileUploadMix
    rw [h.1]
  · unfold handleFileUploadMix
    rw [h.2]

/-- C9 witness: after a good image and a good PDF, a failing PDF conversion
aborts with the read-failure message, zero calls and zero insertions, while
a failing image read in the same position stalls at `SCANNING` with no
message, zero calls and zero insertions. -/
theorem C9_prep_failure_behavior_witness :
    (∀ f ∈ [InputFile.imageFile "imgA", InputFile.pdfFile ["p1", "p2"]],
      isGoodFile f = true) ∧
    (handleFileUploadMix (δ := Nat)
        ([InputFile.imageFile "imgA", InputFile.pdfFile ["p1", "p2"]] ++
          InputFile.badPdf :: [InputFile.imageFile "imgB"])
        (fun _ => Except.ok ⟨7, 1⟩) =
      { status := ScanStatus.error
        errorMsg :=
          some "Failed to read files (PDF conversion or image reading failed)."
        recognitionCalls := 0
        insertedRecords := [] }) ∧
    (handleFileUploadMix (δ := Nat)
        ([InputFile.imageFile "imgA", InputFile.pdfFile ["p1", "p2"]] ++
          InputFile.badImage :: [InputFile.imageFile "imgB"])
        (fun _ => Except.ok ⟨7, 1⟩) =
      { status := ScanStatus.scanning
        errorMsg := none
        recognitionCalls := 0
        insertedRecords := [] }) := by
  have hg : ∀ f ∈ [InputFile.imageFile "imgA", InputFile.pdfFile ["p1", "p2"]],
      isGoodFile f = true := by decide
  have h := C9_prep_failure_behavior (δ := Nat)
    [InputFile.imageFile "imgA", InputFile.pdfFile ["p1", "p2"]]
    [InputFile.imageFile "imgB"] (fun _ => Except.ok ⟨7, 1⟩) hg
  exact ⟨hg, h.1, h.2⟩

end OMRScanner
